import Mathlib

/-!
Verification development for the `labscommunity/common` datastore access
layer.  The definitions below are a shallow embedding of
`src/services/gcp/gcp-datastore.service.ts` (appearing in the source drop as
the second part of `src/utils/random-token.ts`), of the interfaces in
`src/services/gcp/models.ts`, and of the `getRandomToken` utility.

Modelling conventions:
* an `async` TypeScript method is a function returning `Except String α`
  together with an updated `DSState` recording the observable effects
  (underlying remote invocations, sleeps, connection renewals);
* a call into the underlying `@google-cloud/datastore` handle is an oracle
  `Nat → CallOutcome α` indexed by how many underlying invocations have
  happened before it; a call can throw synchronously, return a promise that
  rejects, or return a promise that resolves;
* JavaScript truthiness is modelled explicitly where the source relies on it
  in `if` guards (`0`, `""` and `undefined` are falsy);
* the native datastore `Query` object is modelled as the list of clauses
  applied to it, in application order.
-/

namespace GcpCommon

/-- Truthiness of a possibly-undefined JS string: `undefined` and the empty
string are falsy, every other string is truthy. -/
def jsTruthyStr : Option String → Bool
  | none => false
  | some s => s != ""

/-- Semantics of the JS expression `x || d` where `x` is a possibly-undefined
string: the default is used when `x` is `undefined` or the empty string. -/
def jsOrStr : Option String → String → String
  | none, d => d
  | some s, d => if s = "" then d else s

/-- A dynamically typed JS value, used for the `value: any` field of a
queryable filter. -/
inductive JsValue where
  | str (s : String)
  | num (n : Int)
  | boolean (b : Bool)
  | null
  deriving DecidableEq

/-- Interface `QueryableFilter` of `models.ts`: one (property, operator,
value) clause.  The operator is an opaque string from the datastore client's
`Operator` type. -/
structure QueryableFilter where
  property : String
  operator : String
  value : JsValue
  deriving DecidableEq

/-- Datastore `OrderOptions` (second component of the `order` tuple). -/
structure OrderOptions where
  descending : Option Bool := none
  deriving DecidableEq

/-- The `groupBy` field of a queryable: `string | string[]`. -/
inductive GroupByArg where
  | str (s : String)
  | arr (ss : List String)
  deriving DecidableEq

/-- Interface `Queryable` of `models.ts` (that is, `QueryableBase` plus the
`kind` field).  Note that the declared interface has no `projection`
field. -/
structure Queryable where
  kind : String
  limit : Option Int := none
  offset : Option Int := none
  filters : Option (List QueryableFilter) := none
  order : Option (String × OrderOptions) := none
  cursor : Option String := none
  groupBy : Option GroupByArg := none
  deriving DecidableEq

/-- The runtime object that `invokeQuery` destructures.  Its code reads a
`projection` property in addition to the declared `Queryable` fields, and a
plain JS object can carry such an extra property even though the declared
interface does not include it, so the runtime shape is modelled as a
`Queryable` together with that extra property. -/
structure RuntimeQueryable extends Queryable where
  projection : Option (List String) := none
  deriving DecidableEq

/-- One clause applied to a native datastore `Query`. -/
inductive QueryOp where
  | limit (n : Int)
  | offset (n : Int)
  | filter (property : String) (operator : String) (value : JsValue)
  | order (property : String) (options : OrderOptions)
  | start (cursor : String)
  | groupBy (g : GroupByArg)
  | select (fields : List String)
  deriving DecidableEq

/-- A native datastore `Query`: the kind it was created for together with the
clauses applied to it, in application order. -/
@[ext]
structure NativeQuery where
  kind : String
  ops : List QueryOp
  deriving DecidableEq

/-- Applying one clause to a native query appends it to the clause list. -/
def NativeQuery.applyOp (g : NativeQuery) (op : QueryOp) : NativeQuery :=
  { g with ops := g.ops ++ [op] }

/-- Method `Query.limit`. -/
def NativeQuery.limit (g : NativeQuery) (n : Int) : NativeQuery :=
  g.applyOp (.limit n)

/-- Method `Query.offset`. -/
def NativeQuery.offset (g : NativeQuery) (n : Int) : NativeQuery :=
  g.applyOp (.offset n)

/-- Method `Query.filter`. -/
def NativeQuery.filter (g : NativeQuery) (p op : String) (v : JsValue) : NativeQuery :=
  g.applyOp (.filter p op v)

/-- Method `Query.order`. -/
def NativeQuery.order (g : NativeQuery) (p : String) (o : OrderOptions) : NativeQuery :=
  g.applyOp (.order p o)

/-- Method `Query.start`. -/
def NativeQuery.start (g : NativeQuery) (c : String) : NativeQuery :=
  g.applyOp (.start c)

/-- Method `Query.groupBy`. -/
def NativeQuery.groupBy (g : NativeQuery) (x : GroupByArg) : NativeQuery :=
  g.applyOp (.groupBy x)

/-- Method `Query.select`. -/
def NativeQuery.select (g : NativeQuery) (fs : List String) : NativeQuery :=
  g.applyOp (.select fs)

/-- Source `this.datastoreInstance.createQuery(kind)`: a fresh native query
for the kind, with no clauses. -/
def createQuery (kind : String) : NativeQuery :=
  ⟨kind, []⟩

/-! The clause-application part of `invokeQuery` (source lines 146-178),
one definition per guarded block, applied in the source's textual order. -/

/-- Source block `if(limit) gdQuery = gdQuery.limit(limit)`: JS truthiness
makes both an absent and a zero `limit` skip the clause. -/
def applyLimit (query : RuntimeQueryable) (gdQuery : NativeQuery) : NativeQuery :=
  match query.limit with
  | some l => if l != 0 then gdQuery.limit l else gdQuery
  | none => gdQuery

/-- Source block `if(offset) gdQuery = gdQuery.offset(offset)`: JS truthiness
makes both an absent and a zero `offset` skip the clause. -/
def applyOffset (query : RuntimeQueryable) (gdQuery : NativeQuery) : NativeQuery :=
  match query.offset with
  | some o => if o != 0 then gdQuery.offset o else gdQuery
  | none => gdQuery

/-- Source block `if(filters && filters.length > 0) filters.forEach(...)`:
each filter of the sequence is applied in order. -/
def applyFilters (query : RuntimeQueryable) (gdQuery : NativeQuery) : NativeQuery :=
  match query.filters with
  | some fs =>
      if fs.length > 0 then
        fs.foldl (fun g f => g.filter f.property f.operator f.value) gdQuery
      else gdQuery
  | none => gdQuery

/-- Source block `if(order) gdQuery = gdQuery.order(order[0], order[1])`:
a tuple is always truthy, so the clause is applied whenever `order` is
present. -/
def applyOrder (query : RuntimeQueryable) (gdQuery : NativeQuery) : NativeQuery :=
  match query.order with
  | some o => gdQuery.order o.1 o.2
  | none => gdQuery

/-- Source block `if(cursor) gdQuery = gdQuery.start(cursor)`: JS truthiness
makes both an absent and an empty-string `cursor` skip the clause. -/
def applyStart (query : RuntimeQueryable) (gdQuery : NativeQuery) : NativeQuery :=
  match query.cursor with
  | some c => if c != "" then gdQuery.start c else gdQuery
  | none => gdQuery

/-- Source block `if(groupBy) gdQuery = gdQuery.groupBy(groupBy)`: an empty
string is falsy and skips the clause, while an array (even empty) is
truthy. -/
def applyGroupBy (query : RuntimeQueryable) (gdQuery : NativeQuery) : NativeQuery :=
  match query.groupBy with
  | some (.str s) => if s != "" then gdQuery.groupBy (.str s) else gdQuery
  | some (.arr ss) => gdQuery.groupBy (.arr ss)
  | none => gdQuery

/-- Source block `if(projection) gdQuery = gdQuery.select(projection)`: an
array (even empty) is truthy, so the clause is applied whenever the runtime
`projection` property is present. -/
def applySelect (query : RuntimeQueryable) (gdQuery : NativeQuery) : NativeQuery :=
  match query.projection with
  | some p => gdQuery.select p
  | none => gdQuery

/-- The query assembled by `invokeQuery` before execution: a fresh query for
`query.kind` with the guarded clause blocks applied in the source's order
(limit, offset, filters, order, cursor, groupBy, projection). -/
def buildGdQuery (query : RuntimeQueryable) : NativeQuery :=
  applySelect query (applyGroupBy query (applyStart query (applyOrder query
    (applyFilters query (applyOffset query (applyLimit query
      (createQuery query.kind)))))))

/-- The `RunQueryInfo` part of a raw datastore response: a status enum string
and an end cursor, each possibly absent. -/
structure RunQueryInfo where
  moreResults : Option String := none
  endCursor : Option String := none
  deriving DecidableEq

/-- A raw `runQuery` response as `invokeQuery` consumes it: possibly absent
altogether (handled by `|| []`), otherwise a two-part array whose components
(entities, query-info) may each be absent. -/
abbrev RawResponse (T : Type) : Type :=
  Option (Option (List T) × Option RunQueryInfo)

/-- Interface `QueryResult` of `models.ts` (without the `isEmpty` closure,
which only reads `resultsStatus` and is modelled as `QueryResult.isEmpty`
below). -/
structure QueryResult (T : Type) where
  entities : List T
  resultsStatus : String
  cursor : Option String
  deriving DecidableEq

/-- The `isEmpty` member produced by `invokeQuery`:
`this.resultsStatus === 'NO_RESULTS'`. -/
def QueryResult.isEmpty (r : QueryResult T) : Bool :=
  r.resultsStatus == "NO_RESULTS"

/-- Source `invokeQuery` (lines 145-191).  The remote execution
`await this.query(query.kind, (query) => gdQuery)` is abstracted by the
`backend` oracle giving the resolved raw response for the native query that
was built; the normalization of the raw two-part response follows the source:
`const data = await this.query(...) || []`, `const queryInfo = data[1] || {}`,
`entities: data[0] || []`,
`resultsStatus: queryInfo.moreResults || 'NO_RESULTS'`,
`cursor: queryInfo.endCursor`. -/
def invokeQuery (backend : NativeQuery → RawResponse T) (query : RuntimeQueryable) :
    QueryResult T :=
  let gdQuery := buildGdQuery query
  let data := (backend gdQuery).getD (none, none)
  let queryInfo := data.2.getD {}
  { entities := data.1.getD []
    resultsStatus := jsOrStr queryInfo.moreResults "NO_RESULTS"
    cursor := queryInfo.endCursor }

set_option genSizeOfSpec false in
/-- Interface `PaginatedQueryResult` of `models.ts`: entities, a cursor, and
a `nextPage` operation returning either a further result (`some`) or
`undefined` (`none`). -/
inductive PaginatedQueryResult (T : Type) : Type where
  | mk (entities : List T) (nextPage : Unit → Option (PaginatedQueryResult T))
      (cursor : Option String)

/-- Field `entities` of a paginated result. -/
def PaginatedQueryResult.entities : PaginatedQueryResult T → List T
  | .mk e _ _ => e

/-- Field `nextPage` of a paginated result. -/
def PaginatedQueryResult.nextPage :
    PaginatedQueryResult T → Unit → Option (PaginatedQueryResult T)
  | .mk _ n _ => n

/-- Field `cursor` of a paginated result. -/
def PaginatedQueryResult.cursor : PaginatedQueryResult T → Option String
  | .mk _ _ c => c

/-- The terminal object literal of `invokePaginatedQuery`:
`entities: [], nextPage: () => undefined, cursor: undefined`. -/
def terminalPage : PaginatedQueryResult T :=
  .mk [] (fun _ => none) none

/-- Source `invokePaginatedQuery` (lines 193-213).  The recursion inside the
`nextPage` closure is unbounded in the source (it is only guarded by the
laziness of the closure), so the embedding carries a `fuel` bound on how many
nested re-invocations the closure tree can model; the claims below are about
a single `nextPage` step, stated for every positive fuel.  The guard is the
source's `if(runQuery.cursor && !runQuery.isEmpty())`, with JS truthiness on
the cursor string. -/
def invokePaginatedQuery (backend : NativeQuery → RawResponse T) :
    Nat → RuntimeQueryable → PaginatedQueryResult T
  | 0, query =>
      let runQuery := invokeQuery backend query
      .mk runQuery.entities
        (fun _ =>
          if jsTruthyStr runQuery.cursor && !runQuery.isEmpty then none
          else some terminalPage)
        runQuery.cursor
  | fuel + 1, query =>
      let runQuery := invokeQuery backend query
      .mk runQuery.entities
        (fun _ =>
          if jsTruthyStr runQuery.cursor && !runQuery.isEmpty then
            some (invokePaginatedQuery backend fuel
              { query with cursor := runQuery.cursor })
          else some terminalPage)
        runQuery.cursor

/-! The key/entity construction layer and the effectful (retrying)
operations. -/

/-- Source `createKey`: `this.datastoreInstance.key([kind, id])`.  A key is a
value object identified by its (kind, id) pair. -/
structure Key where
  kind : String
  id : String
  deriving DecidableEq

/-- Source `createKey(kind, id)`. -/
def createKey (kind : String) (id : String) : Key :=
  ⟨kind, id⟩

/-- Interface `DatastoreEntity` of `models.ts`. -/
structure DatastoreEntity (T : Type) where
  key : Key
  data : T
  excludeFromIndexes : Option (List String) := none

/-- Source `buildEntity(key, data, excludeFromIndexes)`: plain record
assembly. -/
def buildEntity (key : Key) (data : T) (excludeFromIndexes : Option (List String)) :
    DatastoreEntity T :=
  ⟨key, data, excludeFromIndexes⟩

/-- Interface `EntityBuilder` of `models.ts`. -/
structure EntityBuilder (T : Type) where
  kind : String
  id : String
  data : T
  excludeFromIndexes : Option (List String) := none

/-- The union `Array<DatastoreEntity<T>> | DatastoreEntity<T>` accepted by
`save`. -/
inductive SaveArg (T : Type) where
  | one (e : DatastoreEntity T)
  | many (es : List (DatastoreEntity T))

/-- Type `DatastoreEntities` of `models.ts`:
`entity.Key | Array<entity.Key>`. -/
inductive DatastoreEntities where
  | one (k : Key)
  | many (ks : List Key)
  deriving DecidableEq

/-- One observable effect of an operation: an invocation of the underlying
datastore handle, a `sleep`, or a connection renewal. -/
inductive Event where
  | call
  | sleep (ms : Nat)
  | renew
  deriving DecidableEq

/-- The observable state threaded through the effectful operations: how many
underlying invocations have happened, and the chronological effect log. -/
structure DSState where
  calls : Nat := 0
  events : List Event := []
  deriving DecidableEq

/-- Outcome of one invocation of the underlying datastore handle: it can
throw synchronously, or return a promise that rejects, or return a promise
that resolves to a value. -/
inductive CallOutcome (α : Type) where
  | throws (e : String)
  | rejects (e : String)
  | resolves (v : α)

/-- Perform one invocation of the underlying handle: the oracle is consulted
at the current invocation index, the index is advanced, and the invocation is
logged. -/
def invokePrim (prim : Nat → CallOutcome α) (s : DSState) : CallOutcome α × DSState :=
  (prim s.calls, { s with calls := s.calls + 1, events := s.events ++ [.call] })

/-- Source `sleep(ms)` from `src/utils`: modelled by its observable effect
only. -/
def sleep (ms : Nat) (s : DSState) : DSState :=
  { s with events := s.events ++ [.sleep ms] }

/-- Source `renewConnection()`: fetches credentials and replaces the
datastore handle; modelled by its observable effect only. -/
def renewConnection (s : DSState) : DSState :=
  { s with events := s.events ++ [.renew] }

/-- Awaiting a call from the caller's side: both a synchronous throw inside
the async method and a rejection of the returned promise surface as the same
error. -/
def settle : CallOutcome α → Except String α
  | .throws e => .error e
  | .rejects e => .error e
  | .resolves v => .ok v

/-- Embedding of the pattern shared verbatim by `save`, `get` and `query`:

`try { return op(); } catch (e) { await sleep(5000); this.renewConnection();
return op(); }`

inside an `async` method, where `op()` is a thunk over the underlying handle.
Per JS semantics only a synchronous throw of `op()` reaches the `catch`
block; a promise returned from the `try` block that later rejects propagates
to the caller without entering the `catch`.  Inside the `catch`, the second
`op()` is returned the same way, so either kind of failure of the second
attempt propagates. -/
def tryCatchRetry (prim : Nat → CallOutcome α) (s : DSState) :
    Except String α × DSState :=
  match invokePrim prim s with
  | (.throws _, s1) =>
      let s2 := renewConnection (sleep 5000 s1)
      match invokePrim prim s2 with
      | (out, s3) => (settle out, s3)
  | (.rejects e, s1) => (.error e, s1)
  | (.resolves v, s1) => (.ok v, s1)

/-- Source `save` (lines 67-76): builds the thunk
`() => this.datastoreInstance.save(entity)` and runs it under the
try/catch-retry pattern. -/
def save (prim : SaveArg T → Nat → CallOutcome α) (entity : SaveArg T)
    (s : DSState) : Except String α × DSState :=
  tryCatchRetry (prim entity) s

/-- Source `saveFull` (lines 57-61): derive the key, assemble the entity,
delegate to `save`. -/
def saveFull (prim : SaveArg T → Nat → CallOutcome α) (entity : EntityBuilder T)
    (s : DSState) : Except String α × DSState :=
  let key := createKey entity.kind entity.id
  let savedEntity := buildEntity key entity.data entity.excludeFromIndexes
  save prim (.one savedEntity) s

/-- Source `get` (lines 82-91): builds the thunk
`() => this.datastoreInstance.get(key)` and runs it under the
try/catch-retry pattern. -/
def get (prim : DatastoreEntities → Nat → CallOutcome α) (key : DatastoreEntities)
    (s : DSState) : Except String α × DSState :=
  tryCatchRetry (prim key) s

/-- Source `delete` (lines 104-106): a direct, non-wrapped passthrough,
`return this.datastoreInstance.delete(entities)`. -/
def delete (prim : ε → Nat → CallOutcome α) (entities : ε) (s : DSState) :
    Except String α × DSState :=
  match invokePrim (prim entities) s with
  | (out, s1) => (settle out, s1)

/-- The ternary `data?.length > 0 ? data[0] : undefined` of `getSingle`: the
first element of a present non-empty sequence, otherwise an absent value. -/
def firstOrNone : Option (List T) → Option T
  | some (first :: _) => some first
  | _ => none

/-- Source `getSingle` (lines 112-115):
`const data = await this.get(key); return data?.length > 0 ? data[0] :
undefined;`.  The resolved value of `get` is `Option (List T)` so that the
`data?.` guard on an absent response is representable; the error of `get` is
rethrown by `await`. -/
def getSingle (prim : DatastoreEntities → Nat → CallOutcome (Option (List T)))
    (key : Key) (s : DSState) : Except String (Option T) × DSState :=
  match get prim (.one key) s with
  | (.error e, s1) => (.error e, s1)
  | (.ok data, s1) => (.ok (firstOrNone data), s1)

/-- Source `query` (lines 123-139): create a native query for the kind,
apply the processor when present (`if(processor)`), build the thunk
`() => this.datastoreInstance.runQuery(query, options)` and run it under the
try/catch-retry pattern.  The opaque `options` value is passed through to the
underlying call unchanged. -/
def query (prim : NativeQuery → Option ρ → Nat → CallOutcome α) (kind : String)
    (processor : Option (NativeQuery → NativeQuery)) (options : Option ρ)
    (s : DSState) : Except String α × DSState :=
  let q0 := createQuery kind
  let q1 := match processor with
    | some p => p q0
    | none => q0
  tryCatchRetry (prim q1 options) s

/-! The random-token utility (`src/utils/random-token.ts`). -/

/-- The sixteen lowercase hexadecimal digits, in value order, as Node's
`Buffer.toString('hex')` produces them. -/
def hexDigits : List Char :=
  "0123456789abcdef".data

/-- The hexadecimal digit of value `n` (for `n < 16`). -/
def hexChar (n : Nat) : Char :=
  match hexDigits.get? n with
  | some c => c
  | none => '0'

/-- Hex encoding of one byte: the high nibble's digit followed by the low
nibble's digit. -/
def byteToHex (b : Fin 256) : List Char :=
  [hexChar (b.val / 16), hexChar (b.val % 16)]

/-- Source `getRandomToken = (size = 64) => crypto.randomBytes(size)
.toString('hex')`.  The byte source `crypto.randomBytes` is an oracle giving
the buffer contents for a requested byte count. -/
def getRandomToken (randomBytes : Nat → List (Fin 256)) (size : Nat := 64) : String :=
  String.mk (((randomBytes size).map byteToHex).flatten)

/-! Derived descriptions of the clause list contributed by each queryable
field, used to state what `buildGdQuery` applies and in which order. -/

/-- Clauses contributed by the `limit` field: one `limit` clause when present
and non-zero, nothing otherwise. -/
def limitOps (q : RuntimeQueryable) : List QueryOp :=
  match q.limit with
  | some l => if l != 0 then [.limit l] else []
  | none => []

/-- Clauses contributed by the `offset` field: one `offset` clause when
present and non-zero, nothing otherwise. -/
def offsetOps (q : RuntimeQueryable) : List QueryOp :=
  match q.offset with
  | some o => if o != 0 then [.offset o] else []
  | none => []

/-- Clauses contributed by the `filters` field: one `filter` clause per
(property, operator, value) triple, in the sequence's order. -/
def filterOps (q : RuntimeQueryable) : List QueryOp :=
  match q.filters with
  | some fs => fs.map (fun f => .filter f.property f.operator f.value)
  | none => []

/-- Clauses contributed by the `order` field: one `order` clause when
present. -/
def orderOps (q : RuntimeQueryable) : List QueryOp :=
  match q.order with
  | some o => [.order o.1 o.2]
  | none => []

/-- Clauses contributed by the `cursor` field: one `start` clause when
present and non-empty, nothing otherwise. -/
def cursorOps (q : RuntimeQueryable) : List QueryOp :=
  match q.cursor with
  | some c => if c != "" then [.start c] else []
  | none => []

/-- Clauses contributed by the `groupBy` field: one `groupBy` clause when
present and truthy (a non-empty string, or any array). -/
def groupByOps (q : RuntimeQueryable) : List QueryOp :=
  match q.groupBy with
  | some (.str s) => if s != "" then [.groupBy (.str s)] else []
  | some (.arr ss) => [.groupBy (.arr ss)]
  | none => []

/-- Clauses contributed by the runtime `projection` property: one `select`
clause whenever it is present. -/
def selectOps (q : RuntimeQueryable) : List QueryOp :=
  match q.projection with
  | some p => [.select p]
  | none => []

/-! Concrete backends and queryables used to instantiate the statements
below. -/

/-- A backend returning one entity, a non-empty end cursor, and a
more-results status. -/
def c2wBackend : NativeQuery → RawResponse Nat :=
  fun _ => some (some [7],
    some { moreResults := some "MORE_RESULTS_AFTER_LIMIT", endCursor := some "abc" })

/-- A minimal queryable for kind `k`. -/
def c2wQ : RuntimeQueryable := { kind := "k" }

/-- A backend returning one entity, a more-results status, and an
empty-string end cursor. -/
def c2cBackend : NativeQuery → RawResponse Nat :=
  fun _ => some (some [5],
    some { moreResults := some "MORE_RESULTS_AFTER_LIMIT", endCursor := some "" })

/-- A minimal queryable for kind `k`. -/
def c2cQ : RuntimeQueryable := { kind := "k" }

/-- A backend resolving to an absent response. -/
def c3wBackend : NativeQuery → RawResponse Nat := fun _ => none

/-- A minimal queryable for kind `k`. -/
def c3wQ : RuntimeQueryable := { kind := "k" }

/-- A backend resolving to an absent response. -/
def c3cBackend : NativeQuery → RawResponse Nat := fun _ => none

/-- A minimal queryable for kind `kk`. -/
def c3cQ : RuntimeQueryable := { kind := "kk" }

/-- A queryable whose `limit` field is present and equal to zero. -/
def c4q : RuntimeQueryable := { kind := "k", limit := some 0 }

/-- A minimal queryable for kind `k`, without a runtime projection
property. -/
def c4qa : RuntimeQueryable := { kind := "k" }

/-- The same queryable as `c4qa` except that the runtime object carries a
projection property, which the declared `Queryable` interface does not
have. -/
def c4qb : RuntimeQueryable := { kind := "k", projection := some ["f"] }

/-- A backend resolving to a two-part response with absent entities and
absent query info. -/
def c5Backend : NativeQuery → RawResponse Nat := fun _ => some (none, none)

/-- A minimal queryable for kind `k`. -/
def c5Q : RuntimeQueryable := { kind := "k" }

/-- A byte source producing a zero-filled buffer of the requested size. -/
def c9Bytes : Nat → List (Fin 256) := fun n => List.replicate n 0

/-! Helper lemmas. -/

/-- Clause list of the query after the `limit` block. -/
lemma applyLimit_ops (q : RuntimeQueryable) (g : NativeQuery) :
    (applyLimit q g).ops = g.ops ++ limitOps q := by
  unfold applyLimit limitOps
  cases q.limit with
  | none => simp
  | some l => cases h : l != 0 <;> simp [h, NativeQuery.limit, NativeQuery.applyOp]

/-- The `limit` block does not change the query's kind. -/
lemma applyLimit_kind (q : RuntimeQueryable) (g : NativeQuery) :
    (applyLimit q g).kind = g.kind := by
  unfold applyLimit
  cases q.limit with
  | none => rfl
  | some l => cases h : l != 0 <;> simp [h, NativeQuery.limit, NativeQuery.applyOp]

/-- Clause list of the query after the `offset` block. -/
lemma applyOffset_ops (q : RuntimeQueryable) (g : NativeQuery) :
    (applyOffset q g).ops = g.ops ++ offsetOps q := by
  unfold applyOffset offsetOps
  cases q.offset with
  | none => simp
  | some o => cases h : o != 0 <;> simp [h, NativeQuery.offset, NativeQuery.applyOp]

/-- The `offset` block does not change the query's kind. -/
lemma applyOffset_kind (q : RuntimeQueryable) (g : NativeQuery) :
    (applyOffset q g).kind = g.kind := by
  unfold applyOffset
  cases q.offset with
  | none => rfl
  | some o => cases h : o != 0 <;> simp [h, NativeQuery.offset, NativeQuery.applyOp]

/-- Folding the filter sequence over a query appends one filter clause per
triple, in the sequence's order. -/
lemma filterFoldl_ops (fs : List QueryableFilter) (g : NativeQuery) :
    (fs.foldl (fun g f => g.filter f.property f.operator f.value) g).ops =
      g.ops ++ fs.map (fun f => QueryOp.filter f.property f.operator f.value) := by
  induction fs generalizing g with
  | nil => simp
  | cons f fs ih =>
      rw [List.foldl_cons, ih]
      simp [NativeQuery.filter, NativeQuery.applyOp]

/-- Folding the filter sequence does not change the query's kind. -/
lemma filterFoldl_kind (fs : List QueryableFilter) (g : NativeQuery) :
    (fs.foldl (fun g f => g.filter f.property f.operator f.value) g).kind = g.kind := by
  induction fs generalizing g with
  | nil => rfl
  | cons f fs ih =>
      rw [List.foldl_cons, ih]
      rfl

/-- Clause list of the query after the `filters` block. -/
lemma applyFilters_ops (q : RuntimeQueryable) (g : NativeQuery) :
    (applyFilters q g).ops = g.ops ++ filterOps q := by
  unfold applyFilters filterOps
  cases q.filters with
  | none => simp
  | some fs => cases fs with
    | nil => simp
    | cons f fs =>
        simp
        rw [filterFoldl_ops]
        simp [NativeQuery.filter, NativeQuery.applyOp]

/-- The `filters` block does not change the query's kind. -/
lemma applyFilters_kind (q : RuntimeQueryable) (g : NativeQuery) :
    (applyFilters q g).kind = g.kind := by
  unfold applyFilters
  cases q.filters with
  | none => rfl
  | some fs => cases fs with
    | nil => rfl
    | cons f fs =>
        simp
        rw [filterFoldl_kind]
        rfl

/-- Clause list of the query after the `order` block. -/
lemma applyOrder_ops (q : RuntimeQueryable) (g : NativeQuery) :
    (applyOrder q g).ops = g.ops ++ orderOps q := by
  unfold applyOrder orderOps
  cases q.order with
  | none => simp
  | some o => simp [NativeQuery.order, NativeQuery.applyOp]

/-- The `order` block does not change the query's kind. -/
lemma applyOrder_kind (q : RuntimeQueryable) (g : NativeQuery) :
    (applyOrder q g).kind = g.kind := by
  unfold applyOrder
  cases q.order with
  | none => rfl
  | some o => rfl

/-- Clause list of the query after the `cursor` block. -/
lemma applyStart_ops (q : RuntimeQueryable) (g : NativeQuery) :
    (applyStart q g).ops = g.ops ++ cursorOps q := by
  unfold applyStart cursorOps
  cases q.cursor with
  | none => simp
  | some c => cases h : c != "" <;> simp [h, NativeQuery.start, NativeQuery.applyOp]

/-- The `cursor` block does not change the query's kind. -/
lemma applyStart_kind (q : RuntimeQueryable) (g : NativeQuery) :
    (applyStart q g).kind = g.kind := by
  unfold applyStart
  cases q.cursor with
  | none => rfl
  | some c => cases h : c != "" <;> simp [h, NativeQuery.start, NativeQuery.applyOp]

/-- Clause list of the query after the `groupBy` block. -/
lemma applyGroupBy_ops (q : RuntimeQueryable) (g : NativeQuery) :
    (applyGroupBy q g).ops = g.ops ++ groupByOps q := by
  unfold applyGroupBy groupByOps
  cases q.groupBy with
  | none => simp
  | some x => cases x with
    | str s => cases h : s != "" <;> simp [h, NativeQuery.groupBy, NativeQuery.applyOp]
    | arr ss => simp [NativeQuery.groupBy, NativeQuery.applyOp]

/-- The `groupBy` block does not change the query's kind. -/
lemma applyGroupBy_kind (q : RuntimeQueryable) (g : NativeQuery) :
    (applyGroupBy q g).kind = g.kind := by
  unfold applyGroupBy
  cases q.groupBy with
  | none => rfl
  | some x => cases x with
    | str s => cases h : s != "" <;> simp [h, NativeQuery.groupBy, NativeQuery.applyOp]
    | arr ss => rfl

/-- Clause list of the query after the `projection` block. -/
lemma applySelect_ops (q : RuntimeQueryable) (g : NativeQuery) :
    (applySelect q g).ops = g.ops ++ selectOps q := by
  unfold applySelect selectOps
  cases q.projection with
  | none => simp
  | some p => simp [NativeQuery.select, NativeQuery.applyOp]

/-- The `projection` block does not change the query's kind. -/
lemma applySelect_kind (q : RuntimeQueryable) (g : NativeQuery) :
    (applySelect q g).kind = g.kind := by
  unfold applySelect
  cases q.projection with
  | none => rfl
  | some p => rfl

/-- The query built by `invokeQuery` is scoped to the queryable's kind. -/
lemma buildGdQuery_kind (q : RuntimeQueryable) :
    (buildGdQuery q).kind = q.kind := by
  unfold buildGdQuery
  rw [applySelect_kind, applyGroupBy_kind, applyStart_kind, applyOrder_kind,
    applyFilters_kind, applyOffset_kind, applyLimit_kind]
  rfl

/-- The clause list built by `invokeQuery` is exactly the concatenation of
the per-field clause lists, in the source's fixed order. -/
lemma buildGdQuery_ops (q : RuntimeQueryable) :
    (buildGdQuery q).ops =
      limitOps q ++ offsetOps q ++ filterOps q ++ orderOps q ++ cursorOps q ++
        groupByOps q ++ selectOps q := by
  unfold buildGdQuery
  rw [applySelect_ops, applyGroupBy_ops, applyStart_ops, applyOrder_ops,
    applyFilters_ops, applyOffset_ops, applyLimit_ops]
  simp [createQuery, List.append_assoc]

/-- The try/catch-retry pattern performs at most two underlying
invocations. -/
lemma tryCatchRetry_calls (f : Nat → CallOutcome α) (s : DSState) :
    (tryCatchRetry f s).2.calls ≤ s.calls + 2 := by
  unfold tryCatchRetry invokePrim
  cases f s.calls <;> simp [sleep, renewConnection]

/-- Every output of `hexChar` is a hexadecimal digit. -/
lemma hexChar_mem (n : Nat) : hexChar n ∈ hexDigits := by
  unfold hexChar
  cases h : hexDigits.get? n with
  | none => decide
  | some c => exact List.get?_mem h

/-- The hex encoding of a byte buffer has two characters per byte. -/
lemma byteToHex_flatten_length (bs : List (Fin 256)) :
    ((bs.map byteToHex).flatten).length = 2 * bs.length := by
  induction bs with
  | nil => simp
  | cons b bs ih => simp [byteToHex, ih, Nat.mul_succ]


/-- Every character of the hex encoding of a byte buffer is a hexadecimal
digit. -/
lemma byteToHex_flatten_mem (bs : List (Fin 256)) :
    ∀ c ∈ (bs.map byteToHex).flatten, c ∈ hexDigits := by
  intro c hc
  rw [List.mem_flatten] at hc
  obtain ⟨l, hl, hcl⟩ := hc
  rw [List.mem_map] at hl
  obtain ⟨b, _, rfl⟩ := hl
  simp [byteToHex] at hcl
  rcases hcl with rfl | rfl <;> exact hexChar_mem _

/-! Claim theorems. -/

/-- C1: the claim says a first failure of the underlying call makes
`save`/`get`/`query` sleep five seconds, renew the connection and invoke the
call once more.  The code instead returns the thunk's promise from inside
`try` without awaiting it, so the usual failure mode — a rejected promise —
never reaches the `catch` block: evaluated on an underlying call whose
promise rejects, each of the three operations propagates the error after
exactly one invocation, with no sleep, no renewal and no second attempt. -/
theorem c1_rejected_first_call_not_retried :
    save (fun (_ : SaveArg Nat) (_ : Nat) =>
          (CallOutcome.rejects "network error" : CallOutcome Nat))
        (SaveArg.one (buildEntity (createKey "k" "1") 0 none)) ⟨0, []⟩ =
      (Except.error "network error", ⟨1, [Event.call]⟩) ∧
    get (fun (_ : DatastoreEntities) (_ : Nat) =>
          (CallOutcome.rejects "network error" : CallOutcome (Option (List Nat))))
        (DatastoreEntities.one (createKey "k" "1")) ⟨0, []⟩ =
      (Except.error "network error", ⟨1, [Event.call]⟩) ∧
    query (fun (_ : NativeQuery) (_ : Option Unit) (_ : Nat) =>
          (CallOutcome.rejects "network error" : CallOutcome Nat))
        "k" none none ⟨0, []⟩ =
      (Except.error "network error", ⟨1, [Event.call]⟩) :=
  ⟨rfl, rfl, rfl⟩

/-- C2 (amended): if `invokeQuery` yields a cursor that is present and
non-empty and an `isEmpty()` of false, then `nextPage()` of the paginated
result re-invokes `invokePaginatedQuery` with a queryable equal to the
original in every field except `cursor`, which is replaced by the newly
obtained cursor (the fuel index only bounds the modelled recursion depth of
the closure tree). -/
theorem c2_next_page_reinvokes (backend : NativeQuery → RawResponse T)
    (q : RuntimeQueryable) (fuel : Nat) (c : String)
    (hc : (invokeQuery backend q).cursor = some c) (hne : c ≠ "")
    (hemp : (invokeQuery backend q).isEmpty = false) :
    (invokePaginatedQuery backend (fuel + 1) q).nextPage () =
      some (invokePaginatedQuery backend fuel
        { q with cursor := (invokeQuery backend q).cursor }) := by
  simp [invokePaginatedQuery, PaginatedQueryResult.nextPage, hc, hemp, jsTruthyStr, hne]

/-- C2 witness: the amended theorem applied to a concrete backend returning
cursor `abc` and a non-empty status. -/
theorem c2_next_page_reinvokes_witness :
    (invokePaginatedQuery c2wBackend 1 c2wQ).nextPage () =
      some (invokePaginatedQuery c2wBackend 0
        { c2wQ with cursor := (invokeQuery c2wBackend c2wQ).cursor }) :=
  c2_next_page_reinvokes c2wBackend c2wQ 0 "abc" rfl (by decide) rfl

/-- C2 counterexample: with a backend returning the empty-string cursor, the
cursor is present and the page is not empty, yet `nextPage()` returns the
terminal page (entities `[]`) instead of the result of re-invoking
`invokePaginatedQuery` with the new cursor (whose entities would be `[5]`):
the claim's premise "cursor is present" is not sufficient, because the code's
`if(runQuery.cursor)` guard treats the empty string as absent. -/
theorem c2_counterexample :
    (invokeQuery c2cBackend c2cQ).cursor = some "" ∧
    (invokeQuery c2cBackend c2cQ).isEmpty = false ∧
    ((invokePaginatedQuery c2cBackend 1 c2cQ).nextPage ()).map
        PaginatedQueryResult.entities = some [] ∧
    (invokePaginatedQuery c2cBackend 0 { c2cQ with cursor := some "" }).entities = [5] :=
  ⟨rfl, rfl, rfl, rfl⟩

/-- C3 (amended): for a page whose cursor is absent or whose `isEmpty()` is
true, `nextPage()` returns the terminal page — empty entities, absent cursor
— and the terminal page's own `nextPage()` returns an absent result
(`undefined`), not another page; it never throws and never returns new
data. -/
theorem c3_terminal (backend : NativeQuery → RawResponse T) (fuel : Nat)
    (q : RuntimeQueryable)
    (h : (invokeQuery backend q).cursor = none ∨ (invokeQuery backend q).isEmpty = true) :
    (invokePaginatedQuery backend fuel q).nextPage () = some terminalPage ∧
    (terminalPage : PaginatedQueryResult T).entities = [] ∧
    (terminalPage : PaginatedQueryResult T).cursor = none ∧
    (terminalPage : PaginatedQueryResult T).nextPage () = none := by
  have hcond : (jsTruthyStr (invokeQuery backend q).cursor &&
      !(invokeQuery backend q).isEmpty) = false := by
    rcases h with h | h <;> simp [jsTruthyStr, h]
  refine ⟨?_, rfl, rfl, rfl⟩
  cases fuel <;> simp [invokePaginatedQuery, PaginatedQueryResult.nextPage, hcond]

/-- C3 witness: the amended theorem applied to a backend with no response,
whose page therefore has an absent cursor. -/
theorem c3_terminal_witness :
    (invokePaginatedQuery c3wBackend 0 c3wQ).nextPage () = some terminalPage :=
  (c3_terminal c3wBackend 0 c3wQ (Or.inl rfl)).1

/-- C3 counterexample: the terminal page obtained from an exhausted page's
`nextPage()` has a `nextPage()` that returns `undefined` (`none`), not
another terminal page as the claim states. -/
theorem c3_counterexample :
    (invokePaginatedQuery c3cBackend 1 c3cQ).nextPage () =
      some (terminalPage : PaginatedQueryResult Nat) ∧
    (terminalPage : PaginatedQueryResult Nat).nextPage () = none ∧
    (terminalPage : PaginatedQueryResult Nat).nextPage () ≠ some terminalPage :=
  ⟨rfl, rfl, fun h => Option.noConfusion h⟩

/-- C4 (amended): `invokeQuery` applies to the native query, in the fixed
order limit, offset, filters, order, cursor, groupBy, projection, exactly the
fields that are present and truthy, with one filter clause per (property,
operator, value) triple in the sequence's order; a present-but-falsy field
(zero limit or offset, empty-string cursor or groupBy, empty filters
sequence) contributes nothing, and each absent field is a no-op.  The
projection clause comes from the runtime object's `projection` property,
which the declared `Queryable` type does not include. -/
theorem c4_clause_application (q : RuntimeQueryable) :
    (buildGdQuery q).kind = q.kind ∧
    (buildGdQuery q).ops =
      limitOps q ++ offsetOps q ++ filterOps q ++ orderOps q ++ cursorOps q ++
        groupByOps q ++ selectOps q :=
  ⟨buildGdQuery_kind q, buildGdQuery_ops q⟩

/-- C4 counterexample: a queryable whose `limit` field is present and equal
to zero gets no limit clause at all, so the claim that exactly the present
fields are applied fails; and two runtime queryables equal as values of the
declared `Queryable` type can build different native queries, because the
projection that `invokeQuery` reads is not part of that type. -/
theorem c4_counterexample :
    c4q.limit = some 0 ∧
    (buildGdQuery c4q).ops = [] ∧
    c4qb.toQueryable = c4qa.toQueryable ∧
    buildGdQuery c4qb ≠ buildGdQuery c4qa :=
  ⟨rfl, rfl, rfl, by decide⟩

/-- C5: `invokeQuery` normalizes the raw two-part response as claimed:
entities default to the empty sequence when absent, `resultsStatus` defaults
to `NO_RESULTS` when the backend provides no status (absent query info or
absent `moreResults`), the cursor is taken from the query info's `endCursor`
field when the info is present, and `isEmpty()` is true exactly when
`resultsStatus` equals `NO_RESULTS`. -/
theorem c5_normalizes (backend : NativeQuery → RawResponse T) (q : RuntimeQueryable)
    (rawEntities : Option (List T)) (rawInfo : Option RunQueryInfo)
    (h : backend (buildGdQuery q) = some (rawEntities, rawInfo)) :
    (rawEntities = none → (invokeQuery backend q).entities = []) ∧
    (∀ es, rawEntities = some es → (invokeQuery backend q).entities = es) ∧
    (rawInfo = none → (invokeQuery backend q).resultsStatus = "NO_RESULTS") ∧
    (∀ i, rawInfo = some i → i.moreResults = none →
      (invokeQuery backend q).resultsStatus = "NO_RESULTS") ∧
    (∀ i, rawInfo = some i → (invokeQuery backend q).cursor = i.endCursor) ∧
    ((invokeQuery backend q).isEmpty = true ↔
      (invokeQuery backend q).resultsStatus = "NO_RESULTS") := by
  refine ⟨?_, ?_, ?_, ?_, ?_, ?_⟩
  · intro he; simp [invokeQuery, h, he]
  · intro es he; simp [invokeQuery, h, he]
  · intro hi; simp [invokeQuery, h, hi, jsOrStr]
  · intro i hi hm; simp [invokeQuery, h, hi, hm, jsOrStr]
  · intro i hi; simp [invokeQuery, h, hi]
  · simp [QueryResult.isEmpty, beq_iff_eq]

/-- C5 witness: the normalization theorem applied to a backend resolving to a
pair with absent entities and absent query info. -/
theorem c5_normalizes_witness :
    (invokeQuery c5Backend c5Q).entities = [] ∧
    (invokeQuery c5Backend c5Q).resultsStatus = "NO_RESULTS" :=
  ⟨(c5_normalizes c5Backend c5Q none none rfl).1 rfl,
   (c5_normalizes c5Backend c5Q none none rfl).2.2.1 rfl⟩

/-- C6: `delete` is a direct passthrough to the underlying handle: it
performs exactly one underlying invocation (the effect log gains only that
invocation — no sleep, no renewal), and the outcome of that single call,
failure included, is returned to the caller as is. -/
theorem c6_delete_direct_passthrough (prim : ε → Nat → CallOutcome α)
    (entities : ε) (s : DSState) :
    delete prim entities s =
      (settle (prim entities s.calls),
        { s with calls := s.calls + 1, events := s.events ++ [Event.call] }) :=
  rfl

/-- C7: `getSingle` is `get` followed by the pure first-element selection:
its result is the first element of the resolved sequence when present and
non-empty and an absent value when the sequence is empty or absent, an empty
result is never an error (only a failure of `get` itself is), the effect
state is exactly that of `get`, and at most two underlying invocations ever
happen. -/
theorem c7_get_single_first_or_absent
    (prim : DatastoreEntities → Nat → CallOutcome (Option (List T)))
    (key : Key) (s : DSState) :
    (getSingle prim key s).1 =
      Except.map firstOrNone ((get prim (DatastoreEntities.one key) s).1) ∧
    (getSingle prim key s).2 = (get prim (DatastoreEntities.one key) s).2 ∧
    (getSingle prim key s).2.calls ≤ s.calls + 2 := by
  have hcalls : (get prim (DatastoreEntities.one key) s).2.calls ≤ s.calls + 2 :=
    tryCatchRetry_calls (prim (DatastoreEntities.one key)) s
  unfold getSingle
  rcases hg : get prim (DatastoreEntities.one key) s with ⟨r, s1⟩
  rw [hg] at hcalls
  cases r with
  | error e => exact ⟨rfl, rfl, hcalls⟩
  | ok data => exact ⟨rfl, rfl, hcalls⟩

/-- C8: the convenience save operation equals the composition the claim
states: derive the key with `createKey`, assemble the entity with
`buildEntity`, then `save` it. -/
theorem c8_save_full_composition (prim : SaveArg T → Nat → CallOutcome α)
    (b : EntityBuilder T) (s : DSState) :
    saveFull prim b s =
      save prim
        (SaveArg.one (buildEntity (createKey b.kind b.id) b.data b.excludeFromIndexes))
        s :=
  rfl

/-- C9: when the byte source returns a buffer of the requested size,
`getRandomToken` returns the hex encoding of those bytes — a string of
length `2 * size` all of whose characters are hexadecimal digits — and the
size defaults to 64 when no argument is given. -/
theorem c9_get_random_token (randomBytes : Nat → List (Fin 256)) (size : Nat)
    (h : (randomBytes size).length = size) :
    (getRandomToken randomBytes size).length = 2 * size ∧
    (∀ c ∈ (getRandomToken randomBytes size).data, c ∈ hexDigits) ∧
    getRandomToken randomBytes = getRandomToken randomBytes 64 := by
  refine ⟨?_, ?_, rfl⟩
  · show (((randomBytes size).map byteToHex).flatten).length = 2 * size
    rw [byteToHex_flatten_length, h]
  · show ∀ c ∈ ((randomBytes size).map byteToHex).flatten, c ∈ hexDigits
    exact byteToHex_flatten_mem _

/-- C9 witness: the token built from a three-byte buffer has six
characters. -/
theorem c9_get_random_token_witness :
    (getRandomToken c9Bytes 3).length = 2 * 3 :=
  (c9_get_random_token c9Bytes 3 (by simp [c9Bytes])).1

/-- C10: a zero value for the `limit` or `offset` field builds exactly the
native query that the absent field would build, so a caller cannot express a
zero-limit or explicit zero-offset query through `invokeQuery`. -/
theorem c10_zero_limit_offset_ignored (q : RuntimeQueryable) :
    buildGdQuery { q with limit := some 0 } = buildGdQuery { q with limit := none } ∧
    buildGdQuery { q with offset := some 0 } = buildGdQuery { q with offset := none } := by
  refine ⟨NativeQuery.ext ?_ ?_, NativeQuery.ext ?_ ?_⟩ <;>
    simp [buildGdQuery_kind, buildGdQuery_ops, limitOps, offsetOps, filterOps,
      orderOps, cursorOps, groupByOps, selectOps]

end GcpCommon
